import Mathlib

/-!
# Shallow embedding of `src/backend/kernel_manager.py`

This file models the stateful code-execution session manager
(`JupyterKernelManager`) of the alzheimers-pipeline backend and proves
properties of its output classification, event-drain loop, timeout
handling, restart handling and cell tagging.

Modelling choices:
* Output records (`outputs.append({...})` dicts) become the inductive
  type `OutputRec`, one constructor per `type` tag used by the source.
* The iopub message stream consumed by `_execute_code_sync` becomes a
  list of `KernelTick`s: a message (with its parent id, content and the
  elapsed wall-clock seconds observed at the timeout checks of that
  iteration), a `queue.Empty` poll miss, or a transport exception.
* The drain loop (kernel_manager.py lines 145-231) becomes the
  structurally recursive function `drainLoop`; exhausting the tick list
  while the Python loop would still be running is the `pending` outcome,
  so theorems about a finished execution hypothesise a `done`/`raised`
  outcome.
* Statuses are the literal strings the source uses
  ("ok" / "error" / "timeout" / "restart_needed").
-/

/-- An output record, mirroring the dicts appended to `outputs` in
`kernel_manager.py`. -/
inductive OutputRec : Type
  | stream (name : String) (content : String)
  | image (content : String) (format : String)
  | html (content : String)
  | text (content : String)
  | error (ename : String) (evalue : String) (traceback : List String)
  deriving DecidableEq, Repr

/-- The mime-type payload bag of an `execute_result` / `display_data`
message: the three keys `_process_display_data` probes. -/
structure DisplayData : Type where
  imagePng : Option String
  textHtml : Option String
  textPlain : Option String
  deriving DecidableEq, Repr

/-- `_process_display_data` (kernel_manager.py lines 250-275): priority
image/png, then text/html, then text/plain; otherwise `None`. -/
def processDisplayData (data : DisplayData) : Option OutputRec :=
  match data.imagePng with
  | some v => some (OutputRec.image v "png")
  | none =>
    match data.textHtml with
    | some v => some (OutputRec.html v)
    | none =>
      match data.textPlain with
      | some v => some (OutputRec.text v)
      | none => none

/-- Content of an iopub message, as read by the drain loop.  The error
name is `Option String` because the source reads it with
`content.get('ename', 'Error')`. -/
inductive IoPubContent : Type
  | stream (name : String) (text : String)
  | executeResult (data : DisplayData)
  | displayData (data : DisplayData)
  | error (ename : Option String) (evalue : String) (traceback : List String)
  | statusMsg (executionState : String)
  | other
  deriving DecidableEq, Repr

/-- One iteration's input to the drain loop: a message (parent msg id,
content, elapsed seconds at this iteration's timeout checks), a
`queue.Empty` poll miss, or an exception raised by the transport. -/
inductive KernelTick : Type
  | msg (parentId : String) (content : IoPubContent) (now : Nat)
  | empty (now : Nat)
  | exn (e : String)
  deriving DecidableEq, Repr

/-- `overall_timeout_seconds = 300` (kernel_manager.py line 142). -/
def overallTimeoutSeconds : Nat := 300

/-- The timeout error record synthesized at lines 154-159 / 213-218 /
225-230 of kernel_manager.py. -/
def timeoutRecord : OutputRec :=
  OutputRec.error "TimeoutError"
    ("Cell execution exceeded " ++ toString overallTimeoutSeconds ++ "s") []

/-- The stream record synthesized for a `KernelRestartRequest` error
(kernel_manager.py lines 192-196). -/
def restartRequestedRecord : OutputRec :=
  OutputRec.stream "stdout"
    "Kernel restart requested. The kernel will be restarted after this cell completes.\n"

/-- Classification of one matching, non-status message
(kernel_manager.py lines 163-204): appends zero or one record to the
accumulated outputs and updates the status. -/
def classifyEvent (content : IoPubContent) (outputs : List OutputRec)
    (status : String) : List OutputRec × String :=
  match content with
  | IoPubContent.stream name text =>
      (outputs ++ [OutputRec.stream name text], status)
  | IoPubContent.executeResult data =>
      (outputs ++ (processDisplayData data).toList, status)
  | IoPubContent.displayData data =>
      (outputs ++ (processDisplayData data).toList, status)
  | IoPubContent.error ename evalue traceback =>
      let errorName := ename.getD "Error"
      if errorName = "KernelRestartRequest" then
        (outputs ++ [restartRequestedRecord], "restart_needed")
      else
        (outputs ++ [OutputRec.error errorName evalue traceback], "error")
  | IoPubContent.statusMsg _ => (outputs, status)
  | IoPubContent.other => (outputs, status)

/-- Whether a message content is this submission's idle marker
(kernel_manager.py line 206). -/
def isIdle (content : IoPubContent) : Bool :=
  match content with
  | IoPubContent.statusMsg s => s = "idle"
  | _ => false

/-- The value `{'outputs': ..., 'status': ...}` returned by
`_execute_code_sync`. -/
structure ExecResult : Type where
  outputs : List OutputRec
  status : String
  deriving DecidableEq, Repr

/-- Outcome of running the drain loop on a finite list of ticks:
the loop broke and the function returns (`done`), an exception escaped
the loop body (`raised`), or the tick list ended while the Python loop
would still be iterating (`pending`). -/
inductive LoopResult : Type
  | done (r : ExecResult)
  | raised (e : String)
  | pending (outputs : List OutputRec) (status : String)
  deriving DecidableEq, Repr

/-- The event-drain loop of `_execute_code_sync`
(kernel_manager.py lines 145-231). -/
def drainLoop (msgId : String) : List KernelTick → List OutputRec → String → LoopResult
  | [], outputs, status => LoopResult.pending outputs status
  | KernelTick.exn e :: _, _, _ => LoopResult.raised e
  | KernelTick.empty now :: rest, outputs, status =>
      if overallTimeoutSeconds < now then
        LoopResult.done ⟨outputs ++ [timeoutRecord], "timeout"⟩
      else
        drainLoop msgId rest outputs status
  | KernelTick.msg parentId content now :: rest, outputs, status =>
      if parentId ≠ msgId then
        if overallTimeoutSeconds < now then
          LoopResult.done ⟨outputs ++ [timeoutRecord], "timeout"⟩
        else
          drainLoop msgId rest outputs status
      else if isIdle content then
        LoopResult.done ⟨outputs, status⟩
      else
        let p := classifyEvent content outputs status
        if overallTimeoutSeconds < now then
          LoopResult.done ⟨p.1 ++ [timeoutRecord], "timeout"⟩
        else
          drainLoop msgId rest p.1 p.2

/-- `_execute_code_sync` (kernel_manager.py lines 61-248): runs the
drain loop starting from `outputs = []`, `status = "ok"`; the
`except Exception` handler converts a raised transport exception into a
single `ExecutionError` record with status `"error"`.  `none` means the
tick list ended before the loop terminated. -/
def executeCodeSync (msgId : String) (ticks : List KernelTick) : Option ExecResult :=
  match drainLoop msgId ticks [] "ok" with
  | LoopResult.done r => some r
  | LoopResult.raised e =>
      some ⟨[OutputRec.error "ExecutionError" e [e]], "error"⟩
  | LoopResult.pending _ _ => none

/-- Cell tracking comment (kernel_manager.py lines 281-285):
`if cell_id:` is Python truthiness on an `int`, i.e. `cell_id != 0`. -/
def trackedCode (code : String) (cellId : Option Int) : String :=
  match cellId with
  | some cid => if cid ≠ 0 then "# Cell " ++ toString cid ++ "\n" ++ code else code
  | none => code

/-- The value returned by `restart_kernel` / carried in status maps. -/
structure RestartResult : Type where
  status : String
  message : Option String
  deriving DecidableEq, Repr

/-- Which steps of `restart_kernel`'s body raise, if any: the transport
environment the restart runs against. -/
structure RestartEnv : Type where
  stopChannelsRaises : Option String
  shutdownRaises : Option String
  initializeRaises : Option String
  deriving DecidableEq, Repr

/-- `restart_kernel` (kernel_manager.py lines 313-334): the whole body —
`stop_channels`, `shutdown_kernel`, the sleep and `_initialize_kernel` —
sits in one `try`; the first exception anywhere jumps to the handler,
which returns `{"status": "error", "message": str(e)}`. -/
def restartKernel (env : RestartEnv) : RestartResult :=
  match env.stopChannelsRaises with
  | some e => ⟨"error", some e⟩
  | none =>
    match env.shutdownRaises with
    | some e => ⟨"error", some e⟩
    | none =>
      match env.initializeRaises with
      | some e => ⟨"error", some e⟩
      | none => ⟨"restarted", none⟩

/-- Whether `restart_kernel`'s control flow reaches
`_initialize_kernel()` (kernel_manager.py line 328), i.e. whether a new
kernel handle is even attempted. -/
def restartReachesInitialize (env : RestartEnv) : Bool :=
  env.stopChannelsRaises.isNone && env.shutdownRaises.isNone

/-- First of the two informational records appended by `execute_code`
after an implicit restart (kernel_manager.py lines 297-301). -/
def kernelRestartedRecord : OutputRec :=
  OutputRec.stream "stdout" "\n✓ Kernel has been restarted successfully.\n"

/-- Second informational record appended by `execute_code`
(kernel_manager.py lines 302-306). -/
def stateClearedRecord : OutputRec :=
  OutputRec.stream "stdout"
    "Note: Previous variables and imports have been cleared. You may need to re-run previous cells.\n"

/-- Observable outcome of one `execute_code` call: the source actually
submitted to the kernel, whether `restart_kernel` was invoked, and the
returned result (`none` when the modelled tick list ended before the
drain loop terminated). -/
structure ExecOutcome : Type where
  submitted : String
  restartCalled : Bool
  result : Option ExecResult
  deriving DecidableEq, Repr

/-- `execute_code` (kernel_manager.py lines 277-309): tags the code,
runs `_execute_code_sync`, and on status `restart_needed` calls
`restart_kernel` (discarding its return value), appends the two
informational stream records and rewrites the status to `"ok"`. -/
def executeCode (code : String) (cellId : Option Int) (msgId : String)
    (ticks : List KernelTick) (renv : RestartEnv) : ExecOutcome :=
  let tracked := trackedCode code cellId
  match executeCodeSync msgId ticks with
  | none => ⟨tracked, false, none⟩
  | some result =>
    if result.status = "restart_needed" then
      let _ := restartKernel renv
      ⟨tracked, true,
        some ⟨result.outputs ++ [kernelRestartedRecord, stateClearedRecord], "ok"⟩⟩
    else
      ⟨tracked, false, some result⟩

/-!
## Lock discipline

`JupyterKernelManager` owns one `threading.Lock` (`self._lock`,
kernel_manager.py line 22).  To reason about which methods access the
interpreter handle (`self.km` / `self.kc`) under that lock, each
method's body is abstracted to its sequence of lock and handle actions,
in source order.
-/

/-- An abstract action on the session's shared state: acquiring or
releasing `self._lock`, or touching/replacing the interpreter handle
(`self.km` / `self.kc`). -/
inductive LockAction : Type
  | acquire
  | release
  | handleAccess
  deriving DecidableEq, Repr

/-- Action trace of `_execute_code_sync` (kernel_manager.py lines
61-248): the whole body, including every use of `self.kc`, runs inside
`with self._lock`. -/
def executeCodeSyncActions : List LockAction :=
  [LockAction.acquire, LockAction.handleAccess, LockAction.release]

/-- Action trace of `_initialize_kernel` (kernel_manager.py lines
25-59): replaces `self.km` / `self.kc` with fresh objects (a handle
access), then runs the setup code through `_execute_code_sync`, which
takes the lock internally. -/
def initializeKernelActions : List LockAction :=
  LockAction.handleAccess :: executeCodeSyncActions

/-- Action trace of `restart_kernel` (kernel_manager.py lines 313-334):
`self.kc.stop_channels()` and `self.km.shutdown_kernel()` access the
old handle, then `_initialize_kernel()` replaces it.  No statement of
`restart_kernel` acquires `self._lock`. -/
def restartKernelActions : List LockAction :=
  LockAction.handleAccess :: LockAction.handleAccess :: initializeKernelActions

/-- `guardedFrom d tr` holds when, starting at lock depth `d`, every
handle access in `tr` happens at positive lock depth, i.e. under the
guard. -/
def guardedFrom : Nat → List LockAction → Bool
  | _, [] => true
  | d, LockAction.acquire :: rest => guardedFrom (d + 1) rest
  | d, LockAction.release :: rest => guardedFrom (d - 1) rest
  | d, LockAction.handleAccess :: rest => decide (0 < d) && guardedFrom d rest

/-- A method's handle accesses are all performed while holding
`self._lock`. -/
def handleAccessesGuarded (tr : List LockAction) : Bool :=
  guardedFrom 0 tr

/-- Claim C6 (counterexample): contrary to the claim, `restart_kernel`
does not hold the Session Guard while shutting down and replacing the
interpreter handle — its handle accesses happen at lock depth 0. -/
theorem restart_kernel_not_guarded_counterexample :
    ¬ handleAccessesGuarded restartKernelActions = true := by
  decide

/-- Claim C6 (amended): `_execute_code_sync` performs its handle
accesses under `self._lock`, but `restart_kernel` shuts down and
replaces the handle without acquiring the lock (only the setup
execution nested inside `_initialize_kernel` takes it), so a restart is
not excluded from running concurrently with an execution's access to
the handle. -/
theorem restart_kernel_unguarded :
    handleAccessesGuarded executeCodeSyncActions = true ∧
    handleAccessesGuarded restartKernelActions = false ∧
    LockAction.handleAccess ∈ restartKernelActions := by
  decide

/-- Claim C7 (counterexample): a failure while stopping the old
handle's channels is not ignored — `restart_kernel` returns
`{"status": "error"}` and never reaches `_initialize_kernel`, so no new
handle or session id is produced. -/
theorem restart_kernel_shutdown_failure_counterexample :
    restartKernel ⟨some "boom", none, none⟩ = ⟨"error", some "boom"⟩ ∧
    restartReachesInitialize ⟨some "boom", none, none⟩ = false := by
  decide

/-- Claim C7 (amended): failures while shutting down the old handle are
not ignored: any exception in `stop_channels` or `shutdown_kernel`
aborts the restart with `{status: "error", message}` before
`_initialize_kernel` runs; `{status: "restarted"}` with a new handle
results exactly when every step succeeds. -/
theorem restart_kernel_failure_propagation (env : RestartEnv) :
    (∀ e, env.stopChannelsRaises = some e →
      restartKernel env = ⟨"error", some e⟩ ∧
      restartReachesInitialize env = false) ∧
    (∀ e, env.stopChannelsRaises = none → env.shutdownRaises = some e →
      restartKernel env = ⟨"error", some e⟩ ∧
      restartReachesInitialize env = false) ∧
    (env.stopChannelsRaises = none → env.shutdownRaises = none →
      env.initializeRaises = none →
      restartKernel env = ⟨"restarted", none⟩ ∧
      restartReachesInitialize env = true) := by
  refine ⟨?_, ?_, ?_⟩
  · intro e he
    simp [restartKernel, restartReachesInitialize, he]
  · intro e h1 h2
    simp [restartKernel, restartReachesInitialize, h1, h2]
  · intro h1 h2 h3
    simp [restartKernel, restartReachesInitialize, h1, h2, h3]

/-- Witness for `restart_kernel_failure_propagation` at a concrete
environment whose `stop_channels` raises. -/
theorem restart_kernel_failure_propagation_witness :
    restartKernel ⟨some "old handle dead", none, none⟩ =
      ⟨"error", some "old handle dead"⟩ ∧
    restartReachesInitialize ⟨some "old handle dead", none, none⟩ = false :=
  (restart_kernel_failure_propagation ⟨some "old handle dead", none, none⟩).1
    "old handle dead" rfl

/-- Claim C2: inside the drain loop, an error event belonging to the
current submission whose name is the sentinel `KernelRestartRequest`
appends a stream record (not an error record) and sets the status to
`restart_needed`; an error event with any other name appends an error
record carrying name, value and traceback and sets the status to
`error`. -/
theorem error_event_classification (msgId : String) (ename : Option String)
    (evalue : String) (tb : List String) (now : Nat)
    (rest : List KernelTick) (outs : List OutputRec) (st : String)
    (hnow : now ≤ overallTimeoutSeconds) :
    drainLoop msgId
      (KernelTick.msg msgId (IoPubContent.error ename evalue tb) now :: rest)
      outs st =
    (if ename.getD "Error" = "KernelRestartRequest" then
      drainLoop msgId rest (outs ++ [restartRequestedRecord]) "restart_needed"
    else
      drainLoop msgId rest
        (outs ++ [OutputRec.error (ename.getD "Error") evalue tb]) "error") := by
  have hlt : ¬ overallTimeoutSeconds < now := Nat.not_lt.mpr hnow
  by_cases h : ename.getD "Error" = "KernelRestartRequest" <;>
    simp [drainLoop, classifyEvent, isIdle, hlt, h]

/-- Witness for `error_event_classification`: the sentinel error of an
`os._exit` call, followed by nothing, yields the restart-requested
stream record and status `restart_needed`. -/
theorem error_event_classification_witness :
    drainLoop "m"
      [KernelTick.msg "m"
        (IoPubContent.error (some "KernelRestartRequest") "os._exit called" []) 0]
      [] "ok" =
    LoopResult.pending [restartRequestedRecord] "restart_needed" := by
  have h := error_event_classification "m" (some "KernelRestartRequest")
    "os._exit called" [] 0 [] [] "ok" (by decide)
  simpa [drainLoop] using h

/-- Claim C5: `_process_display_data` selects at most one record per
payload, in priority order image/png, then text/html, then text/plain;
lower-priority keys present in the same payload are dropped, and a
payload with none of the three yields nothing. -/
theorem display_data_priority (d : DisplayData) :
    (∀ v, d.imagePng = some v →
      processDisplayData d = some (OutputRec.image v "png")) ∧
    (d.imagePng = none → ∀ v, d.textHtml = some v →
      processDisplayData d = some (OutputRec.html v)) ∧
    (d.imagePng = none → d.textHtml = none → ∀ v, d.textPlain = some v →
      processDisplayData d = some (OutputRec.text v)) ∧
    (d.imagePng = none → d.textHtml = none → d.textPlain = none →
      processDisplayData d = none) := by
  obtain ⟨i, h, t⟩ := d
  refine ⟨?_, ?_, ?_, ?_⟩
  · intro v hv
    cases hv
    rfl
  · intro hi v hv
    cases hi
    cases hv
    rfl
  · intro hi hh v hv
    cases hi
    cases hh
    cases hv
    rfl
  · intro hi hh ht
    cases hi
    cases hh
    cases ht
    rfl

/-- Witness for `display_data_priority`: a payload holding all three
mime types yields only the image record — the html and plain-text
values are dropped. -/
theorem display_data_priority_witness :
    processDisplayData ⟨some "PNGBYTES", some "<b>t</b>", some "t"⟩ =
      some (OutputRec.image "PNGBYTES" "png") :=
  (display_data_priority ⟨some "PNGBYTES", some "<b>t</b>", some "t"⟩).1
    "PNGBYTES" rfl

/-- Splitting the drain loop over an appended tick list: the second part
runs only if the first leaves the loop still pending. -/
theorem drainLoop_append (msgId : String) (a b : List KernelTick)
    (outs : List OutputRec) (st : String) :
    drainLoop msgId (a ++ b) outs st =
      match drainLoop msgId a outs st with
      | LoopResult.pending o s => drainLoop msgId b o s
      | r => r := by
  induction a generalizing outs st with
  | nil => simp [drainLoop]
  | cons t rest ih =>
    cases t with
    | exn e => simp [drainLoop]
    | empty now =>
      by_cases h : overallTimeoutSeconds < now <;>
        simp [drainLoop, h, ih]
    | msg pid c now =>
      by_cases h1 : pid = msgId
      · by_cases h3 : isIdle c
        · simp [drainLoop, h1, h3]
        · by_cases h2 : overallTimeoutSeconds < now <;>
            simp [drainLoop, h1, h3, h2, ih]
      · by_cases h2 : overallTimeoutSeconds < now <;>
          simp [drainLoop, h1, h2, ih]

/-- Classifying a non-error event never changes the status and only
appends records. -/
theorem classifyEvent_nonerror (c : IoPubContent) (outs : List OutputRec)
    (st : String)
    (hc : ∀ en v tb, c ≠ IoPubContent.error en v tb) :
    (classifyEvent c outs st).2 = st ∧
    ∃ extra, (classifyEvent c outs st).1 = outs ++ extra := by
  cases c with
  | stream name text => exact ⟨rfl, [OutputRec.stream name text], rfl⟩
  | executeResult d => exact ⟨rfl, (processDisplayData d).toList, rfl⟩
  | displayData d => exact ⟨rfl, (processDisplayData d).toList, rfl⟩
  | error en v tb => exact absurd rfl (hc en v tb)
  | statusMsg s => exact ⟨rfl, [], by simp [classifyEvent]⟩
  | other => exact ⟨rfl, [], by simp [classifyEvent]⟩

/-- A tick is status-neutral when processing it neither ends the loop
nor changes the status: a poll miss or a message inside the time
ceiling that is not a transport exception and, if it belongs to this
submission, is neither an error event nor the idle marker. -/
def statusNeutral (msgId : String) : KernelTick → Bool
  | KernelTick.exn _ => false
  | KernelTick.empty now => decide (now ≤ overallTimeoutSeconds)
  | KernelTick.msg pid c now =>
      decide (now ≤ overallTimeoutSeconds) &&
      (decide (pid ≠ msgId) ||
        (match c with
         | IoPubContent.error _ _ _ => false
         | IoPubContent.statusMsg s => decide (s ≠ "idle")
         | _ => true))

/-- Running the drain loop over status-neutral ticks leaves it pending
with the status unchanged, having only appended output records. -/
theorem drainLoop_neutral (msgId : String) (ticks : List KernelTick) :
    ∀ outs st, (∀ t ∈ ticks, statusNeutral msgId t = true) →
    ∃ extra, drainLoop msgId ticks outs st =
      LoopResult.pending (outs ++ extra) st := by
  induction ticks with
  | nil => exact fun outs st _ => ⟨[], by simp [drainLoop]⟩
  | cons t rest ih =>
    intro outs st hall
    have ht : statusNeutral msgId t = true := hall t (List.mem_cons_self t rest)
    have hrest : ∀ u ∈ rest, statusNeutral msgId u = true :=
      fun u hu => hall u (List.mem_cons_of_mem t hu)
    cases t with
    | exn e => simp [statusNeutral] at ht
    | empty now =>
      have hnow : now ≤ overallTimeoutSeconds := by
        simpa [statusNeutral] using ht
      obtain ⟨extra, hex⟩ := ih outs st hrest
      exact ⟨extra, by simp [drainLoop, Nat.not_lt.mpr hnow, hex]⟩
    | msg pid c now =>
      simp only [statusNeutral, Bool.and_eq_true, Bool.or_eq_true,
        decide_eq_true_eq] at ht
      obtain ⟨hnow, hrestc⟩ := ht
      have hnlt : ¬ overallTimeoutSeconds < now := Nat.not_lt.mpr hnow
      by_cases hpid : pid = msgId
      · subst hpid
        cases c with
        | error en v tb =>
          rcases hrestc with h | h
          · exact absurd rfl h
          · simp at h
        | statusMsg s =>
          have hs : ¬ s = "idle" := by
            rcases hrestc with h | h
            · exact absurd rfl h
            · simpa using h
          obtain ⟨extra, hex⟩ := ih outs st hrest
          exact ⟨extra, by simp [drainLoop, isIdle, classifyEvent, hnlt, hs, hex]⟩
        | stream name text =>
          obtain ⟨extra, hex⟩ := ih (outs ++ [OutputRec.stream name text]) st hrest
          exact ⟨OutputRec.stream name text :: extra,
            by simp [drainLoop, isIdle, classifyEvent, hnlt, hex]⟩
        | executeResult d =>
          obtain ⟨extra, hex⟩ :=
            ih (outs ++ (processDisplayData d).toList) st hrest
          exact ⟨(processDisplayData d).toList ++ extra,
            by simp [drainLoop, isIdle, classifyEvent, hnlt, hex]⟩
        | displayData d =>
          obtain ⟨extra, hex⟩ :=
            ih (outs ++ (processDisplayData d).toList) st hrest
          exact ⟨(processDisplayData d).toList ++ extra,
            by simp [drainLoop, isIdle, classifyEvent, hnlt, hex]⟩
        | other =>
          obtain ⟨extra, hex⟩ := ih outs st hrest
          exact ⟨extra, by simp [drainLoop, isIdle, classifyEvent, hnlt, hex]⟩
      · obtain ⟨extra, hex⟩ := ih outs st hrest
        exact ⟨extra, by simp [drainLoop, hpid, hnlt, hex]⟩

/-- A tick that is this submission's idle marker. -/
def tickHasIdle (msgId : String) : KernelTick → Bool
  | KernelTick.msg pid c _ => decide (pid = msgId) && isIdle c
  | _ => false

/-- A tick on which the transport raises. -/
def tickIsExn : KernelTick → Bool
  | KernelTick.exn _ => true
  | _ => false

/-- A tick observed after the 300s ceiling has elapsed. -/
def tickLate : KernelTick → Bool
  | KernelTick.msg _ _ now => decide (overallTimeoutSeconds < now)
  | KernelTick.empty now => decide (overallTimeoutSeconds < now)
  | KernelTick.exn _ => false

/-- A tick carrying an interpreter error event of this submission whose
resolved name collides with the synthesized `TimeoutError` name. -/
def tickFakesTimeout (msgId : String) : KernelTick → Bool
  | KernelTick.msg pid (IoPubContent.error en _ _) _ =>
      decide (pid = msgId) && decide (en.getD "Error" = "TimeoutError")
  | _ => false

/-- Display-data processing never produces the synthesized timeout
record. -/
theorem timeoutRecord_notin_display (d : DisplayData) :
    timeoutRecord ∉ (processDisplayData d).toList := by
  obtain ⟨i, h, t⟩ := d
  cases i <;> cases h <;> cases t <;>
    simp [processDisplayData, timeoutRecord]

/-- Classifying an event whose error name (if any) is not `TimeoutError`
cannot introduce the synthesized timeout record. -/
theorem classifyEvent_no_timeoutRecord (c : IoPubContent)
    (outs : List OutputRec) (st : String)
    (hfake : ∀ en v tb, c = IoPubContent.error en v tb →
      en.getD "Error" ≠ "TimeoutError")
    (houts : timeoutRecord ∉ outs) :
    timeoutRecord ∉ (classifyEvent c outs st).1 := by
  cases c with
  | stream name text =>
    simp only [classifyEvent, List.mem_append, List.mem_singleton]
    rintro (h | h)
    · exact houts h
    · rw [timeoutRecord] at h
      cases h
  | executeResult d =>
    have hd := timeoutRecord_notin_display d
    simp only [classifyEvent, List.mem_append]
    rintro (h | h)
    · exact houts h
    · exact hd h
  | displayData d =>
    have hd := timeoutRecord_notin_display d
    simp only [classifyEvent, List.mem_append]
    rintro (h | h)
    · exact houts h
    · exact hd h
  | error en v tb =>
    have hf := hfake en v tb rfl
    by_cases hs : en.getD "Error" = "KernelRestartRequest"
    · simp only [classifyEvent, hs, if_true, List.mem_append,
        List.mem_singleton]
      rintro (h | h)
      · exact houts h
      · rw [timeoutRecord, restartRequestedRecord] at h
        cases h
    · simp only [classifyEvent, hs, if_false, List.mem_append,
        List.mem_singleton]
      rintro (h | h)
      · exact houts h
      · rw [timeoutRecord] at h
        injection h with h1 h2 h3
        exact hf h1.symm
  | statusMsg s =>
    simpa [classifyEvent] using houts
  | other =>
    simpa [classifyEvent] using houts

/-- If the tick stream contains no idle marker for this submission, no
transport exception and no error event named `TimeoutError`, but does
contain a tick past the 300s ceiling, the drain loop ends with status
`timeout` and appends the synthesized timeout record as the last —
and only — timeout record. -/
theorem drainLoop_timeout (msgId : String) (ticks : List KernelTick) :
    ∀ outs st,
    (∀ t ∈ ticks, tickHasIdle msgId t = false) →
    (∀ t ∈ ticks, tickIsExn t = false) →
    (∀ t ∈ ticks, tickFakesTimeout msgId t = false) →
    (∃ t ∈ ticks, tickLate t = true) →
    timeoutRecord ∉ outs →
    ∃ os, drainLoop msgId ticks outs st =
      LoopResult.done ⟨os ++ [timeoutRecord], "timeout"⟩ ∧
      timeoutRecord ∉ os := by
  induction ticks with
  | nil =>
    intro outs st _ _ _ hlate _
    obtain ⟨t, ht, _⟩ := hlate
    exact absurd ht (List.not_mem_nil t)
  | cons t rest ih =>
    intro outs st hidle hexn hfake hlate houts
    have hidleR : ∀ u ∈ rest, tickHasIdle msgId u = false :=
      fun u hu => hidle u (List.mem_cons_of_mem t hu)
    have hexnR : ∀ u ∈ rest, tickIsExn u = false :=
      fun u hu => hexn u (List.mem_cons_of_mem t hu)
    have hfakeR : ∀ u ∈ rest, tickFakesTimeout msgId u = false :=
      fun u hu => hfake u (List.mem_cons_of_mem t hu)
    cases t with
    | exn e =>
      have := hexn (KernelTick.exn e) (List.mem_cons_self _ _)
      simp [tickIsExn] at this
    | empty now =>
      by_cases h : overallTimeoutSeconds < now
      · exact ⟨outs, by simp [drainLoop, h], houts⟩
      · have hlateR : ∃ u ∈ rest, tickLate u = true := by
          obtain ⟨u, hu, hl⟩ := hlate
          rcases List.mem_cons.mp hu with rfl | hu'
          · simp [tickLate, h] at hl
          · exact ⟨u, hu', hl⟩
        obtain ⟨os, hos, hnotin⟩ := ih outs st hidleR hexnR hfakeR hlateR houts
        exact ⟨os, by simp [drainLoop, h, hos], hnotin⟩
    | msg pid c now =>
      by_cases hpid : pid = msgId
      · have hidlec : isIdle c = false := by
          have := hidle (KernelTick.msg pid c now) (List.mem_cons_self _ _)
          simpa [tickHasIdle, hpid] using this
        have hfk : ∀ en v tb, c = IoPubContent.error en v tb →
            en.getD "Error" ≠ "TimeoutError" := by
          intro en v tb hc
          have := hfake (KernelTick.msg pid c now) (List.mem_cons_self _ _)
          rw [hc] at this
          simpa [tickFakesTimeout, hpid] using this
        have houts' : timeoutRecord ∉ (classifyEvent c outs st).1 :=
          classifyEvent_no_timeoutRecord c outs st hfk houts
        by_cases h : overallTimeoutSeconds < now
        · exact ⟨(classifyEvent c outs st).1,
            by simp [drainLoop, hpid, hidlec, h], houts'⟩
        · have hlateR : ∃ u ∈ rest, tickLate u = true := by
            obtain ⟨u, hu, hl⟩ := hlate
            rcases List.mem_cons.mp hu with rfl | hu'
            · simp [tickLate, h] at hl
            · exact ⟨u, hu', hl⟩
          obtain ⟨os, hos, hnotin⟩ := ih (classifyEvent c outs st).1
            (classifyEvent c outs st).2 hidleR hexnR hfakeR hlateR houts'
          exact ⟨os, by simp [drainLoop, hpid, hidlec, h, hos], hnotin⟩
      · by_cases h : overallTimeoutSeconds < now
        · exact ⟨outs, by simp [drainLoop, hpid, h], houts⟩
        · have hlateR : ∃ u ∈ rest, tickLate u = true := by
            obtain ⟨u, hu, hl⟩ := hlate
            rcases List.mem_cons.mp hu with rfl | hu'
            · simp [tickLate, h] at hl
            · exact ⟨u, hu', hl⟩
          obtain ⟨os, hos, hnotin⟩ := ih outs st hidleR hexnR hfakeR hlateR houts
          exact ⟨os, by simp [drainLoop, hpid, h, hos], hnotin⟩

/-- Claim C4: an execution whose event stream never yields this
submission's idle marker (and never fakes the synthesized error name)
but runs past the 300s ceiling returns status `"timeout"` with the
synthesized `TimeoutError` record — referencing the 300s ceiling —
appended exactly once, as the last output record. -/
theorem execution_timeout_result (msgId : String) (ticks : List KernelTick)
    (hidle : ∀ t ∈ ticks, tickHasIdle msgId t = false)
    (hexn : ∀ t ∈ ticks, tickIsExn t = false)
    (hfake : ∀ t ∈ ticks, tickFakesTimeout msgId t = false)
    (hlate : ∃ t ∈ ticks, tickLate t = true) :
    ∃ r, executeCodeSync msgId ticks = some r ∧
      r.status = "timeout" ∧
      r.outputs.getLast? = some timeoutRecord ∧
      r.outputs.count timeoutRecord = 1 := by
  obtain ⟨os, hos, hnotin⟩ :=
    drainLoop_timeout msgId ticks [] "ok" hidle hexn hfake hlate
      (List.not_mem_nil _)
  refine ⟨⟨os ++ [timeoutRecord], "timeout"⟩, ?_, rfl, ?_, ?_⟩
  · simp [executeCodeSync, hos]
  · simp
  · rw [List.count_append, List.count_eq_zero.mpr hnotin]
    simp

/-- Witness for `execution_timeout_result`: a single poll miss observed
at 301 elapsed seconds yields the timeout result. -/
theorem execution_timeout_result_witness :
    ∃ r, executeCodeSync "m" [KernelTick.empty 301] = some r ∧
      r.status = "timeout" ∧
      r.outputs.getLast? = some timeoutRecord ∧
      r.outputs.count timeoutRecord = 1 :=
  execution_timeout_result "m" [KernelTick.empty 301]
    (by decide) (by decide) (by decide)
    ⟨KernelTick.empty 301, List.mem_cons_self _ _, by decide⟩

/-- Claim C3: a transport exception raised while draining an
execution's events is caught by `_execute_code_sync`, which returns a
result with status `"error"` containing the single `ExecutionError`
record; the caller of `execute_code` receives that structured result
(and no restart happens) rather than an exception. -/
theorem transport_exception_caught (msgId e : String)
    (pre rest : List KernelTick) (outs : List OutputRec) (st : String)
    (hpre : drainLoop msgId pre [] "ok" = LoopResult.pending outs st) :
    executeCodeSync msgId (pre ++ KernelTick.exn e :: rest) =
      some ⟨[OutputRec.error "ExecutionError" e [e]], "error"⟩ ∧
    ∀ code cellId renv,
      (executeCode code cellId msgId (pre ++ KernelTick.exn e :: rest) renv).result =
        some ⟨[OutputRec.error "ExecutionError" e [e]], "error"⟩ ∧
      (executeCode code cellId msgId (pre ++ KernelTick.exn e :: rest) renv).restartCalled =
        false := by
  have hsplit := drainLoop_append msgId pre (KernelTick.exn e :: rest) [] "ok"
  rw [hpre] at hsplit
  have hsync : executeCodeSync msgId (pre ++ KernelTick.exn e :: rest) =
      some ⟨[OutputRec.error "ExecutionError" e [e]], "error"⟩ := by
    simp [executeCodeSync, hsplit, drainLoop]
  refine ⟨hsync, fun code cellId renv => ?_⟩
  constructor <;> simp [executeCode, hsync]

/-- Witness for `transport_exception_caught`: the transport raising on
the first poll yields the single `ExecutionError` record. -/
theorem transport_exception_caught_witness :
    executeCodeSync "m" ([] ++ KernelTick.exn "Connection reset" :: []) =
      some ⟨[OutputRec.error "ExecutionError" "Connection reset"
        ["Connection reset"]], "error"⟩ :=
  (transport_exception_caught "m" "Connection reset" [] [] [] "ok" rfl).1

/-- Claim C1: when `_execute_code_sync` reports `restart_needed`,
`execute_code` invokes the restart before returning, rewrites the
status to `"ok"`, and appends exactly the two informational stream
records — kernel restarted, prior state cleared — after the existing
outputs. -/
theorem restart_rewrites_status (code : String) (cellId : Option Int)
    (msgId : String) (ticks : List KernelTick) (renv : RestartEnv)
    (r : ExecResult)
    (hsync : executeCodeSync msgId ticks = some r)
    (hst : r.status = "restart_needed") :
    executeCode code cellId msgId ticks renv =
      ⟨trackedCode code cellId, true,
        some ⟨r.outputs ++ [kernelRestartedRecord, stateClearedRecord], "ok"⟩⟩ := by
  simp [executeCode, hsync, hst]

/-- Witness for `restart_rewrites_status`: a sentinel error event
followed by the idle marker produces the rewritten `"ok"` result with
the two trailing informational records. -/
theorem restart_rewrites_status_witness :
    executeCode "exit()" none "m"
      [KernelTick.msg "m"
        (IoPubContent.error (some "KernelRestartRequest") "sys.exit called" []) 0,
       KernelTick.msg "m" (IoPubContent.statusMsg "idle") 1]
      ⟨none, none, none⟩ =
      ⟨trackedCode "exit()" none, true,
        some ⟨[restartRequestedRecord] ++ [kernelRestartedRecord, stateClearedRecord],
          "ok"⟩⟩ :=
  restart_rewrites_status "exit()" none "m" _ ⟨none, none, none⟩
    ⟨[restartRequestedRecord], "restart_needed"⟩ rfl rfl

/-- Claim C9: the value returned by `restart_kernel` is discarded by
the implicit-restart path: even when the restart itself reports
`{status: "error"}`, `execute_code` still appends the success records
and returns status `"ok"`. -/
theorem restart_failure_ignored (code : String) (cellId : Option Int)
    (msgId : String) (ticks : List KernelTick) (renv : RestartEnv)
    (r : ExecResult)
    (hsync : executeCodeSync msgId ticks = some r)
    (hst : r.status = "restart_needed")
    (_herr : (restartKernel renv).status = "error") :
    (executeCode code cellId msgId ticks renv).restartCalled = true ∧
    (executeCode code cellId msgId ticks renv).result =
      some ⟨r.outputs ++ [kernelRestartedRecord, stateClearedRecord], "ok"⟩ := by
  constructor <;> simp [executeCode, hsync, hst]

/-- Witness for `restart_failure_ignored`: even with an environment in
which `_initialize_kernel` raises — so `restart_kernel` returns status
`"error"` — the caller still sees `"ok"` with the success records. -/
theorem restart_failure_ignored_witness :
    (executeCode "quit()" none "m"
      [KernelTick.msg "m"
        (IoPubContent.error (some "KernelRestartRequest") "quit/exit called" []) 2,
       KernelTick.msg "m" (IoPubContent.statusMsg "idle") 2]
      ⟨none, none, some "spawn failed"⟩).restartCalled = true ∧
    (executeCode "quit()" none "m"
      [KernelTick.msg "m"
        (IoPubContent.error (some "KernelRestartRequest") "quit/exit called" []) 2,
       KernelTick.msg "m" (IoPubContent.statusMsg "idle") 2]
      ⟨none, none, some "spawn failed"⟩).result =
      some ⟨[restartRequestedRecord] ++ [kernelRestartedRecord, stateClearedRecord],
        "ok"⟩ :=
  restart_failure_ignored "quit()" none "m" _ ⟨none, none, some "spawn failed"⟩
    ⟨[restartRequestedRecord], "restart_needed"⟩ rfl rfl rfl

/-- The source actually submitted by `execute_code` is always the
tracked form of the caller's source. -/
theorem executeCode_submitted (code : String) (cellId : Option Int)
    (msgId : String) (ticks : List KernelTick) (renv : RestartEnv) :
    (executeCode code cellId msgId ticks renv).submitted =
      trackedCode code cellId := by
  unfold executeCode
  cases executeCodeSync msgId ticks with
  | none => rfl
  | some r =>
    by_cases h : r.status = "restart_needed" <;> simp [h]

/-- Claim C8 (counterexample): `execute_code` called with the supplied
cell id `0` submits the source unchanged — `if cell_id:` is false for
`0` — so a supplied sequence id does not always produce the marker. -/
theorem cell_zero_untagged_counterexample :
    (executeCode "x = 1" (some 0) "m" [] ⟨none, none, none⟩).submitted = "x = 1" ∧
    "x = 1" ≠ "# Cell 0\n" ++ "x = 1" := by
  constructor
  · rfl
  · decide

/-- Claim C8 (amended): the submitted source is prefixed with the
`# Cell {cell_id}` marker exactly when the supplied cell id is truthy
(nonzero); with cell id `0` or no cell id, the source is submitted
unchanged. -/
theorem cell_tagging (code : String) (msgId : String)
    (ticks : List KernelTick) (renv : RestartEnv) :
    (∀ cid : Int, cid ≠ 0 →
      (executeCode code (some cid) msgId ticks renv).submitted =
        "# Cell " ++ toString cid ++ "\n" ++ code) ∧
    (executeCode code (some 0) msgId ticks renv).submitted = code ∧
    (executeCode code none msgId ticks renv).submitted = code := by
  refine ⟨?_, ?_, ?_⟩
  · intro cid hcid
    rw [executeCode_submitted]
    simp [trackedCode, hcid]
  · rw [executeCode_submitted]
    simp [trackedCode]
  · rw [executeCode_submitted]
    rfl

/-- Witness for `cell_tagging`: cell id 7 produces the marker. -/
theorem cell_tagging_witness :
    (executeCode "x = 1" (some 7) "m" [] ⟨none, none, none⟩).submitted =
      "# Cell " ++ toString (7 : Int) ++ "\n" ++ "x = 1" :=
  (cell_tagging "x = 1" "m" [] ⟨none, none, none⟩).1 7 (by decide)

/-- Specialization of `drainLoop_append` when the first segment leaves
the loop pending. -/
theorem drainLoop_append_pending (msgId : String) (a b : List KernelTick)
    (outs o : List OutputRec) (st s : String)
    (h : drainLoop msgId a outs st = LoopResult.pending o s) :
    drainLoop msgId (a ++ b) outs st = drainLoop msgId b o s := by
  rw [drainLoop_append, h]

/-- A matching non-idle message within the ceiling steps the loop by
one classification. -/
theorem drainLoop_classify_step (msgId : String) (c : IoPubContent)
    (now : Nat) (rest : List KernelTick) (outs : List OutputRec) (st : String)
    (hnlt : ¬ overallTimeoutSeconds < now) (hidle : isIdle c = false) :
    drainLoop msgId (KernelTick.msg msgId c now :: rest) outs st =
      drainLoop msgId rest (classifyEvent c outs st).1
        (classifyEvent c outs st).2 := by
  simp [drainLoop, hidle, hnlt]

/-- The submission's own idle marker ends the loop, returning the
accumulated outputs and the status as they stand. -/
theorem drainLoop_idle_step (msgId : String) (now : Nat)
    (rest : List KernelTick) (outs : List OutputRec) (st : String) :
    drainLoop msgId
      (KernelTick.msg msgId (IoPubContent.statusMsg "idle") now :: rest)
      outs st =
      LoopResult.done ⟨outs, st⟩ := by
  simp [drainLoop, isIdle]

/-- Claim C10: the internal status is last-writer-wins over the event
stream: a sentinel `KernelRestartRequest` error followed — before the
idle marker, across any status-neutral traffic — by an error event with
a different name yields final status `"error"`, and `execute_code`
performs no restart. -/
theorem last_error_event_wins (code : String) (cellId : Option Int)
    (msgId : String) (renv : RestartEnv)
    (pre mid post : List KernelTick) (outs0 : List OutputRec) (st0 : String)
    (v1 v2 : String) (tb1 tb2 : List String) (en2 : Option String)
    (n1 n2 n3 : Nat) (ticks : List KernelTick)
    (hticks : ticks =
      pre ++ KernelTick.msg msgId
          (IoPubContent.error (some "KernelRestartRequest") v1 tb1) n1 ::
        (mid ++ KernelTick.msg msgId (IoPubContent.error en2 v2 tb2) n2 ::
          (post ++ [KernelTick.msg msgId (IoPubContent.statusMsg "idle") n3])))
    (hpre : drainLoop msgId pre [] "ok" = LoopResult.pending outs0 st0)
    (hmid : ∀ t ∈ mid, statusNeutral msgId t = true)
    (hpost : ∀ t ∈ post, statusNeutral msgId t = true)
    (hn1 : n1 ≤ overallTimeoutSeconds) (hn2 : n2 ≤ overallTimeoutSeconds)
    (hen2 : en2.getD "Error" ≠ "KernelRestartRequest") :
    (executeCode code cellId msgId ticks renv).restartCalled = false ∧
    ∃ os, (executeCode code cellId msgId ticks renv).result =
      some ⟨os, "error"⟩ := by
  subst hticks
  have hnlt1 : ¬ overallTimeoutSeconds < n1 := Nat.not_lt.mpr hn1
  have hnlt2 : ¬ overallTimeoutSeconds < n2 := Nat.not_lt.mpr hn2
  obtain ⟨ex1, hmidrun⟩ := drainLoop_neutral msgId mid
    (outs0 ++ [restartRequestedRecord]) "restart_needed" hmid
  obtain ⟨ex2, hpostrun⟩ := drainLoop_neutral msgId post
    (outs0 ++ [restartRequestedRecord] ++ ex1 ++
      [OutputRec.error (en2.getD "Error") v2 tb2]) "error" hpost
  have hclass1 : classifyEvent
      (IoPubContent.error (some "KernelRestartRequest") v1 tb1) outs0 st0 =
      (outs0 ++ [restartRequestedRecord], "restart_needed") := by
    simp [classifyEvent]
  have hclass2 : classifyEvent (IoPubContent.error en2 v2 tb2)
      (outs0 ++ [restartRequestedRecord] ++ ex1) "restart_needed" =
      (outs0 ++ [restartRequestedRecord] ++ ex1 ++
        [OutputRec.error (en2.getD "Error") v2 tb2], "error") := by
    simp [classifyEvent, hen2]
  have hdone : drainLoop msgId
      (pre ++ KernelTick.msg msgId
          (IoPubContent.error (some "KernelRestartRequest") v1 tb1) n1 ::
        (mid ++ KernelTick.msg msgId (IoPubContent.error en2 v2 tb2) n2 ::
          (post ++ [KernelTick.msg msgId (IoPubContent.statusMsg "idle") n3])))
      [] "ok" =
      LoopResult.done
        ⟨outs0 ++ [restartRequestedRecord] ++ ex1 ++
          [OutputRec.error (en2.getD "Error") v2 tb2] ++ ex2, "error"⟩ := by
    rw [drainLoop_append_pending msgId pre _ [] outs0 "ok" st0 hpre]
    rw [drainLoop_classify_step msgId
      (IoPubContent.error (some "KernelRestartRequest") v1 tb1) n1 _ outs0 st0
      hnlt1 rfl, hclass1]
    rw [drainLoop_append_pending msgId mid _ _ _ "restart_needed"
      "restart_needed" hmidrun]
    rw [drainLoop_classify_step msgId (IoPubContent.error en2 v2 tb2) n2 _ _
      "restart_needed" hnlt2 rfl, hclass2]
    rw [drainLoop_append_pending msgId post _ _ _ "error" "error" hpostrun]
    rw [drainLoop_idle_step]
  have hsync : executeCodeSync msgId
      (pre ++ KernelTick.msg msgId
          (IoPubContent.error (some "KernelRestartRequest") v1 tb1) n1 ::
        (mid ++ KernelTick.msg msgId (IoPubContent.error en2 v2 tb2) n2 ::
          (post ++ [KernelTick.msg msgId (IoPubContent.statusMsg "idle") n3]))) =
      some ⟨outs0 ++ [restartRequestedRecord] ++ ex1 ++
        [OutputRec.error (en2.getD "Error") v2 tb2] ++ ex2, "error"⟩ := by
    simp [executeCodeSync, hdone]
  constructor
  · simp [executeCode, hsync]
  · exact ⟨outs0 ++ [restartRequestedRecord] ++ ex1 ++
      [OutputRec.error (en2.getD "Error") v2 tb2] ++ ex2,
      by simp [executeCode, hsync]⟩

/-- Witness for `last_error_event_wins`: a sentinel error immediately
followed by a genuine `ZeroDivisionError` and then idle ends with
status `"error"` and no restart. -/
theorem last_error_event_wins_witness :
    (executeCode "1/0" none "m"
      [KernelTick.msg "m"
        (IoPubContent.error (some "KernelRestartRequest") "os._exit called" []) 0,
       KernelTick.msg "m"
        (IoPubContent.error (some "ZeroDivisionError") "division by zero" []) 0,
       KernelTick.msg "m" (IoPubContent.statusMsg "idle") 0]
      ⟨none, none, none⟩).restartCalled = false ∧
    ∃ os, (executeCode "1/0" none "m"
      [KernelTick.msg "m"
        (IoPubContent.error (some "KernelRestartRequest") "os._exit called" []) 0,
       KernelTick.msg "m"
        (IoPubContent.error (some "ZeroDivisionError") "division by zero" []) 0,
       KernelTick.msg "m" (IoPubContent.statusMsg "idle") 0]
      ⟨none, none, none⟩).result = some ⟨os, "error"⟩ :=
  last_error_event_wins "1/0" none "m" ⟨none, none, none⟩ [] [] [] [] "ok"
    "os._exit called" "division by zero" [] [] (some "ZeroDivisionError")
    0 0 0 _ rfl rfl (by decide) (by decide) (by decide) (by decide) (by decide)
